import Mathlib

/-!
Verification of the collaborative-session lifecycle core of the repository
(Convex backend: `convex/collaboration.ts` and `convex/sessionActivity.ts`).

The record store is modelled as explicit association lists keyed by numeric
document ids (Convex ids are opaque unique keys; `_creationTime` ordering of
`collect()` corresponds to list insertion order).  JavaScript `Date.now()`
is passed in as an explicit `now : Nat` parameter (milliseconds), and the
impure `generateSessionKey` is passed in as a `freshKey` argument.  A thrown
JS `Error` is an `Except.error`: Convex mutations are atomic transactions,
so a throw rolls back every write of the handler — accordingly the error
constructors carry no database, and `runJoinSession` below realises the
rollback explicitly.  JS truthiness of the fields involved is modelled
exactly (`""`, `0` and `undefined` are falsy) via the `jsOr*` helpers.
-/

/-- `status` field of a `collaborativeSessions` document
(`v.union(v.literal("active"), v.literal("inactive"), v.literal("scheduled_for_deletion"))`). -/
inductive SessionStatus where
  | active
  | inactive
  | scheduledForDeletion
deriving DecidableEq, Repr

/-- `permission` field of a `sessionParticipants` document. -/
inductive Permission where
  | read
  | write
deriving DecidableEq, Repr

/-- `sessionSettings` object (`allowGuests` / `autoSave` / `theme`, all optional). -/
structure SessionSettings where
  allowGuests : Option Bool
  autoSave : Option Bool
  theme : Option String
deriving DecidableEq, Repr

/-- A `collaborativeSessions` document (schema.ts).  Optional schema fields are
`Option`s; `status` is optional for legacy records predating the field. -/
structure Session where
  name : String
  creatorId : String
  sessionKey : String
  language : String
  code : String
  description : Option String
  isPublic : Bool
  isActive : Bool
  activeUsers : List String
  maxUsers : Nat
  createdAt : Nat
  lastActivity : Nat
  status : Option SessionStatus
  expiresAt : Option Nat
  originalSavedSessionId : Option Nat
  sessionSettings : Option SessionSettings
deriving DecidableEq, Repr

/-- A `sessionParticipants` document; `lastSeen` is optional for legacy records. -/
structure Participant where
  sessionId : Nat
  userId : String
  userName : String
  permission : Permission
  joinedAt : Nat
  lastActive : Nat
  isActive : Bool
  lastSeen : Option Nat
deriving DecidableEq, Repr

/-- The `operation` payload of a code update (`type` / `position` / `content` / `length`). -/
structure EditOperation where
  type : String
  position : Nat
  content : String
  length : Option Nat
deriving DecidableEq, Repr

/-- A `codeOperations` document: the append-only operation log. -/
structure CodeOperation where
  sessionId : Nat
  userId : String
  operation : EditOperation
  timestamp : Nat
deriving DecidableEq, Repr

/-- A `sessionMessages` document (session chat). -/
structure SessionMessage where
  sessionId : Nat
  userId : String
  userName : String
  message : String
  timestamp : Nat
deriving DecidableEq, Repr

/-- A `savedSessions` document (a user's permanent copy of a live session). -/
structure SavedSession where
  userId : String
  originalSessionId : Option Nat
  name : String
  language : String
  code : String
  description : Option String
  createdAt : Nat
  updatedAt : Nat
  tags : Option (List String)
  isPrivate : Bool
  maxUsers : Option Nat
  sessionSettings : Option SessionSettings
deriving DecidableEq, Repr

/-- A `users` document, restricted to the fields the session core reads
(`getUserName` only reads `userId` and `name`). -/
structure UserRec where
  userId : String
  name : String
deriving DecidableEq, Repr

/-- The record store.  Keyed tables are association lists `(id, document)` in
creation order; append-only tables whose ids are never referenced are plain
lists.  `nextId` is the id the next insert receives. -/
structure DB where
  users : List UserRec
  sessions : List (Nat × Session)
  participants : List (Nat × Participant)
  codeOperations : List CodeOperation
  sessionMessages : List SessionMessage
  savedSessions : List (Nat × SavedSession)
  nextId : Nat
deriving DecidableEq, Repr

/-- Errors thrown by the handlers, one constructor per `throw new Error(...)` site:
`sessionNotFound` = "Session not found", `sessionFull` = "Session is full",
`permissionDenied` = "Permission denied",
`sessionLimitExceeded` = the 2-session quota messages (create / SESSION_LIMIT_EXCEEDED),
`saveLimitExceeded` = "SAVE_LIMIT_EXCEEDED: ...", `duplicateSave` = "DUPLICATE_SAVE: ...",
`notParticipant` = "You must be a participant to save this session",
`savedSessionNotFound` = "Saved session not found",
`loadPermissionDenied` = "You don't have permission to load this session". -/
inductive SessionError where
  | sessionNotFound
  | sessionFull
  | permissionDenied
  | sessionLimitExceeded
  | saveLimitExceeded
  | duplicateSave
  | notParticipant
  | savedSessionNotFound
  | loadPermissionDenied
deriving DecidableEq, Repr

/-- `INACTIVE_THRESHOLD = 5 * 60 * 1000` (sessionActivity.ts): five minutes in ms. -/
def INACTIVE_THRESHOLD : Nat := 5 * 60 * 1000

/-- `EXPIRY_DELAY = 60 * 60 * 1000` (sessionActivity.ts): one hour in ms. -/
def EXPIRY_DELAY : Nat := 60 * 60 * 1000

/-- `ctx.db.get(id)` on an association-list table: the first (unique) record
with the given id. -/
def lookupId {α : Type} : List (Nat × α) → Nat → Option α
  | [], _ => none
  | (k, v) :: rest, i => if k = i then some v else lookupId rest i

/-- `ctx.db.patch(id, fields)` on an association-list table: merge the update
`f` into every record stored under `id` (unique in a well-formed store).
Patching an absent id is a no-op here (the handlers only patch ids obtained
from a successful read). -/
def patchTable {α : Type} (l : List (Nat × α)) (i : Nat) (f : α → α) : List (Nat × α) :=
  l.map (fun p => if p.1 = i then (p.1, f p.2) else p)

/-- Patch a session document in place. -/
def patchSession (db : DB) (sid : Nat) (f : Session → Session) : DB :=
  { db with sessions := patchTable db.sessions sid f }

/-- Patch a participant document in place. -/
def patchParticipant (db : DB) (pid : Nat) (f : Participant → Participant) : DB :=
  { db with participants := patchTable db.participants pid f }

/-- Index query `by_session_and_user` + `.first()`: the first participant
record of the given (session, user) pair, with its document id. -/
def findParticipantEntry (db : DB) (sid : Nat) (uid : String) : Option (Nat × Participant) :=
  db.participants.find? (fun pr => decide (pr.2.sessionId = sid ∧ pr.2.userId = uid))

/-- Index query `by_session_id` + `.collect()`: all participant records of a
session, with their document ids, in creation order. -/
def participantEntriesOf (db : DB) (sid : Nat) : List (Nat × Participant) :=
  db.participants.filter (fun pr => decide (pr.2.sessionId = sid))

/-- JS `a || b` for an optional string (`""` and `undefined` are falsy). -/
def jsOrString (a : Option String) (b : String) : String :=
  match a with
  | some s => if s = "" then b else s
  | none => b

/-- JS `a || b` for an optional number (`0` and `undefined` are falsy). -/
def jsOrNat (a : Option Nat) (b : Nat) : Nat :=
  match a with
  | some n => if n = 0 then b else n
  | none => b

/-- JS truthiness of an optional numeric field (`session.expiresAt &&` ...). -/
def jsTruthyNat (a : Option Nat) : Bool :=
  match a with
  | some n => n ≠ 0
  | none => false

/-- The per-participant liveness test used by `leaveSession`,
`checkSessionActivity` and `checkAllSessionsActivity`:
`lastSeen ? now - lastSeen <= INACTIVE_THRESHOLD : now - lastActive <= INACTIVE_THRESHOLD`.
JS subtraction can be negative where Nat subtraction truncates to `0`, but the
`≤` comparison has the same truth value either way. -/
def isLiveAt (now : Nat) (p : Participant) : Bool :=
  match p.lastSeen with
  | some ls => decide (now - ls ≤ INACTIVE_THRESHOLD)
  | none => decide (now - p.lastActive ≤ INACTIVE_THRESHOLD)

/-- `getUserName` helper: name of the user record, `"Unknown User"` when the
user is missing or the name is falsy (`user?.name || "Unknown User"`). -/
def getUserName (db : DB) (uid : String) : String :=
  jsOrString ((db.users.find? (fun u => decide (u.userId = uid))).map UserRec.name) "Unknown User"

/-- `getDefaultCodeForLanguage` (collaboration.ts): starter snippet per language. -/
def getDefaultCodeForLanguage (language : String) : String :=
  if language = "javascript" then
    "// Welcome to collaborative coding!\nconsole.log(\"Hello, World!\");"
  else if language = "python" then
    "# Welcome to collaborative coding!\nprint(\"Hello, World!\")"
  else if language = "java" then
    "// Welcome to collaborative coding!\npublic class Main \x7b\n    public static void main(String[] args) \x7b\n        System.out.println(\"Hello, World!\");\n    \x7d\n\x7d"
  else if language = "cpp" then
    "// Welcome to collaborative coding!\n#include <iostream>\nusing namespace std;\n\nint main() \x7b\n    cout << \"Hello, World!\" << endl;\n    return 0;\n\x7d"
  else if language = "typescript" then
    "// Welcome to collaborative coding!\nconsole.log(\"Hello, World!\");"
  else
    "// Welcome to collaborative coding!\n// Start coding together!"

/-- `[...new Set([...activeUsers, userId])]`: append then dedupe keeping the
first occurrence of each element, as a JS `Set` does. -/
def jsSetDedup : List String → List String
  | [] => []
  | a :: rest => a :: jsSetDedup (rest.filter (fun x => x ≠ a))
termination_by l => l.length
decreasing_by
  simp only [List.length_cons]
  exact Nat.lt_succ_of_le (List.length_filter_le _ _)

/-- `leaveSession` (collaboration.ts): deactivate the caller's participant row
(refreshing `lastActive` and `lastSeen`), drop the caller from `activeUsers`,
then re-count live participants (`p.isActive &&` the freshness test) and, if
none remain, schedule the session for deletion one hour out. -/
def leaveSession (db : DB) (sessionId : Nat) (userId : String) (now : Nat) :
    Except SessionError DB :=
  match lookupId db.sessions sessionId with
  | none => .error .sessionNotFound
  | some session =>
    let db1 :=
      match findParticipantEntry db sessionId userId with
      | some (pid, _) =>
          patchParticipant db pid (fun p =>
            { p with isActive := false, lastActive := now, lastSeen := some now })
      | none => db
    let updatedActiveUsers := session.activeUsers.filter (fun id => id ≠ userId)
    let db2 := patchSession db1 sessionId (fun s =>
      { s with activeUsers := updatedActiveUsers, lastActivity := now })
    let allParticipants := (participantEntriesOf db2 sessionId).map Prod.snd
    let activeParticipants := allParticipants.filter (fun p => p.isActive && isLiveAt now p)
    let db3 :=
      if activeParticipants.length = 0 then
        patchSession db2 sessionId (fun s =>
          { s with status := some .scheduledForDeletion, isActive := false,
                   expiresAt := some (now + 60 * 60 * 1000) })
      else db2
    .ok db3

/-- One iteration of the participant loop shared by `checkSessionActivity`
and `checkAllSessionsActivity`: if the participant's stored `isActive` flag
disagrees with the freshly derived liveness, patch the flag (and push
`lastActive` forward to `now` when going inactive, exactly as the source
writes `lastActive: isActiveNow ? participant.lastActive : now`).  `pr` is the
collected snapshot entry; the patch is by its document id. -/
def sweepParticipantStep (now : Nat) (acc : DB) (pr : Nat × Participant) : DB :=
  let p := pr.2
  let isActiveNow := isLiveAt now p
  if p.isActive ≠ isActiveNow then
    patchParticipant acc pr.1 (fun q =>
      { q with isActive := isActiveNow,
               lastActive := if isActiveNow then p.lastActive else now })
  else acc

/-- The live user ids a sweep derives from a collected participant snapshot:
ids of the participants passing the timestamp freshness test, in snapshot
(creation) order. -/
def liveUserIdsAt (parts : List (Nat × Participant)) (now : Nat) : List String :=
  (parts.filter (fun pr => isLiveAt now pr.2)).map (fun pr => pr.2.userId)

/-- The body of the per-session loop of `checkAllSessionsActivity`
(sessionActivity.ts): re-derive each participant's liveness purely from the
timestamps, patch participants whose `isActive` flag changed, then either
schedule the session for deletion (no live participant) or refresh
`activeUsers` to the live ids.  The live ids are computed from the collected
snapshot, exactly as the JS loop does. -/
def processSessionActivity (db : DB) (sid : Nat) (now : Nat) : DB :=
  let participants := participantEntriesOf db sid
  let db1 := participants.foldl (sweepParticipantStep now) db
  let activeUserIds := liveUserIdsAt participants now
  if activeUserIds.length = 0 then
    patchSession db1 sid (fun s =>
      { s with status := some .scheduledForDeletion, isActive := false, activeUsers := [],
               expiresAt := some (now + EXPIRY_DELAY), lastActivity := now })
  else
    patchSession db1 sid (fun s =>
      { s with activeUsers := activeUserIds, lastActivity := now })

/-- `checkAllSessionsActivity` (sessionActivity.ts), the 10-minute cron sweep:
process every session of the `by_is_active = true` index snapshot in order. -/
def checkAllSessionsActivity (db : DB) (now : Nat) : DB :=
  let activeSessions := db.sessions.filter (fun pr => pr.2.isActive)
  activeSessions.foldl (fun acc pr => processSessionActivity acc pr.1 now) db

/-- `joinSession` (collaboration.ts): reactivate a scheduled-for-deletion or
inactive session, reject with "Session is full" when the capacity check on the
originally read `activeUsers` fails for a non-member, upsert the caller's
participant row, and merge the caller into `activeUsers` (JS `Set` union). -/
def joinSession (db : DB) (sessionId : Nat) (userId : String) (now : Nat) :
    Except SessionError DB :=
  match lookupId db.sessions sessionId with
  | none => .error .sessionNotFound
  | some session =>
    let db1 :=
      if session.status = some .scheduledForDeletion ∨ session.isActive = false then
        patchSession db sessionId (fun s =>
          { s with status := some .active, isActive := true, expiresAt := none,
                   lastActivity := now })
      else db
    if session.activeUsers.length ≥ session.maxUsers ∧ userId ∉ session.activeUsers then
      .error .sessionFull
    else
      let db2 :=
        match findParticipantEntry db1 sessionId userId with
        | some (pid, _) =>
            patchParticipant db1 pid (fun p =>
              { p with isActive := true, lastActive := now, lastSeen := some now })
        | none =>
            { db1 with
              participants := db1.participants ++
                [(db1.nextId,
                  { sessionId := sessionId, userId := userId,
                    userName := getUserName db1 userId, permission := .write,
                    joinedAt := now, lastActive := now, lastSeen := some now,
                    isActive := true })],
              nextId := db1.nextId + 1 }
      let updatedActiveUsers := jsSetDedup (session.activeUsers ++ [userId])
      .ok (patchSession db2 sessionId (fun s =>
        { s with activeUsers := updatedActiveUsers, lastActivity := now }))

/-- Convex mutations are atomic: a handler that throws commits nothing.
`runJoinSession` is the externally observable effect of a `joinSession`
call on the store. -/
def runJoinSession (db : DB) (sessionId : Nat) (userId : String) (now : Nat) : DB :=
  match joinSession db sessionId userId now with
  | .ok db' => db'
  | .error _ => db

/-- Arguments of `createSession` (collaboration.ts). -/
structure CreateSessionArgs where
  name : String
  creatorId : String
  language : String
  code : Option String
  description : Option String
  isPublic : Bool
  maxUsers : Option Nat
  sessionSettings : Option SessionSettings
deriving DecidableEq, Repr

/-- `createSession` (collaboration.ts): reject when the creator already has 2
or more sessions (total count over the `by_creator_id` index, regardless of
status), otherwise insert the session (status `active`, `activeUsers` =
the creator) and the creator's write-permission participant row. -/
def createSession (db : DB) (args : CreateSessionArgs) (now : Nat) (freshKey : String) :
    Except SessionError (DB × Nat × String) :=
  let maxUsers := args.maxUsers.getD 5
  let totalSessions := db.sessions.filter (fun pr => decide (pr.2.creatorId = args.creatorId))
  if totalSessions.length ≥ 2 then
    .error .sessionLimitExceeded
  else
    let sessionId := db.nextId
    let session : Session :=
      { name := args.name, creatorId := args.creatorId, sessionKey := freshKey,
        language := args.language,
        code := jsOrString args.code (getDefaultCodeForLanguage args.language),
        description := args.description, isPublic := args.isPublic, isActive := true,
        activeUsers := [args.creatorId], maxUsers := maxUsers, createdAt := now,
        lastActivity := now, status := some .active, expiresAt := none,
        originalSavedSessionId := none,
        sessionSettings := some (args.sessionSettings.getD
          { allowGuests := some false, autoSave := some true, theme := some "dark" }) }
    let participant : Participant :=
      { sessionId := sessionId, userId := args.creatorId,
        userName := getUserName db args.creatorId, permission := .write,
        joinedAt := now, lastActive := now, lastSeen := some now, isActive := true }
    .ok ({ db with
            sessions := db.sessions ++ [(sessionId, session)],
            participants := db.participants ++ [(db.nextId + 1, participant)],
            nextId := db.nextId + 2 },
         sessionId, freshKey)

/-- `updateSessionCode` (collaboration.ts): require a write-permission
participant row; write the code and bump `lastActivity` (logging the optional
operation) only when the code actually changed; refresh the participant's
`lastActive` only when more than 5 seconds old. -/
def updateSessionCode (db : DB) (sessionId : Nat) (userId : String) (code : String)
    (operation : Option EditOperation) (now : Nat) : Except SessionError DB :=
  match lookupId db.sessions sessionId with
  | none => .error .sessionNotFound
  | some session =>
    match findParticipantEntry db sessionId userId with
    | none => .error .permissionDenied
    | some (pid, participant) =>
      if participant.permission ≠ .write then .error .permissionDenied
      else
        let db1 :=
          if session.code ≠ code then
            let dbA := patchSession db sessionId (fun s =>
              { s with code := code, lastActivity := now })
            match operation with
            | some op =>
                { dbA with codeOperations := dbA.codeOperations ++
                    [{ sessionId := sessionId, userId := userId, operation := op,
                       timestamp := now }] }
            | none => dbA
          else db
        let db2 :=
          if now - participant.lastActive > 5000 then
            patchParticipant db1 pid (fun p => { p with lastActive := now })
          else db1
        .ok db2

/-- `getSession` (collaboration.ts): the session document together with its
`isActive` participant rows; "Session not found" when the id does not resolve. -/
def getSession (db : DB) (sessionId : Nat) :
    Except SessionError (Session × List Participant) :=
  match lookupId db.sessions sessionId with
  | none => .error .sessionNotFound
  | some s =>
    .ok (s, ((participantEntriesOf db sessionId).map Prod.snd).filter (fun p => p.isActive))

/-- `participantHeartbeat` (collaboration.ts): if the caller has a participant
row, refresh its timestamps and `isActive`, bump the session's `lastActivity`,
and reactivate the session (status `active`, clear `expiresAt`) when it was
scheduled for deletion.  No participant row: a successful no-op. -/
def participantHeartbeat (db : DB) (sessionId : Nat) (userId : String) (now : Nat) :
    Except SessionError DB :=
  match findParticipantEntry db sessionId userId with
  | none => .ok db
  | some (pid, _) =>
    let db1 := patchParticipant db pid (fun p =>
      { p with lastActive := now, lastSeen := some now, isActive := true })
    let db2 := patchSession db1 sessionId (fun s => { s with lastActivity := now })
    let db3 :=
      match lookupId db2.sessions sessionId with
      | some s =>
        if s.status = some .scheduledForDeletion then
          patchSession db2 sessionId (fun t =>
            { t with status := some .active, isActive := true, expiresAt := none })
        else db2
      | none => db2
    .ok db3

/-- The expiry test of `cleanupExpiredSessions` / `getExpiredSessions`:
`status === "scheduled_for_deletion" && expiresAt && expiresAt < now`
(note the JS truthiness guard on `expiresAt`). -/
def isExpiredAt (now : Nat) (s : Session) : Bool :=
  decide (s.status = some .scheduledForDeletion) && jsTruthyNat s.expiresAt &&
    decide (s.expiresAt.getD 0 < now)

/-- The teardown of one expired session inside `cleanupExpiredSessions`:
delete its participants, code operations and chat messages, then the session
document itself.  Deletes of already-absent records are no-ops, so the
simultaneous filters match the sequential JS deletes. -/
def cascadeDeleteSession (db : DB) (sid : Nat) : DB :=
  { db with
    participants := db.participants.filter (fun pr => decide (pr.2.sessionId ≠ sid)),
    codeOperations := db.codeOperations.filter (fun op => decide (op.sessionId ≠ sid)),
    sessionMessages := db.sessionMessages.filter (fun m => decide (m.sessionId ≠ sid)),
    sessions := db.sessions.filter (fun pr => decide (pr.1 ≠ sid)) }

/-- `cleanupExpiredSessions` (sessionActivity.ts), the 30-minute cron sweep:
tear down every session whose `expiresAt` deadline has passed.  Each teardown
runs inside `try/catch`; `fails` is the failure oracle — a session whose
teardown throws is skipped (logged in the source) and the batch continues. -/
def cleanupExpiredSessions (db : DB) (now : Nat) (fails : Nat → Bool) : DB :=
  let expiredSessions := db.sessions.filter (fun pr => isExpiredAt now pr.2)
  expiredSessions.foldl
    (fun acc pr => if fails pr.1 then acc else cascadeDeleteSession acc pr.1) db

/-- Arguments of `saveSessionToCollection` (collaboration.ts). -/
structure SaveArgs where
  sessionId : Nat
  userId : String
  name : Option String
  description : Option String
  tags : Option (List String)
  isPrivate : Option Bool
deriving DecidableEq, Repr

/-- Patch a saved-session document in place. -/
def patchSavedSession (db : DB) (ssid : Nat) (f : SavedSession → SavedSession) : DB :=
  { db with savedSessions := patchTable db.savedSessions ssid f }

/-- `saveSessionToCollection` (collaboration.ts).  In order: resolve the
session; require the caller to be its creator or a participant; if the session
was loaded from a saved session the caller owns, update that original in place
("smart re-save"); otherwise enforce the 10-save cap
(`SAVE_LIMIT_EXCEEDED`), then reject a repeat save of the same origin
(`DUPLICATE_SAVE` via the `by_user_and_original_session` index), then insert
the new saved session.  Returns `(savedSessionId, isUpdate)`. -/
def saveSessionToCollection (db : DB) (args : SaveArgs) (now : Nat) :
    Except SessionError (DB × Nat × Bool) :=
  match lookupId db.sessions args.sessionId with
  | none => .error .sessionNotFound
  | some session =>
    let participant := findParticipantEntry db args.sessionId args.userId
    if session.creatorId ≠ args.userId ∧ participant = none then .error .notParticipant
    else
      let resaveTarget : Option Nat :=
        match session.originalSavedSessionId with
        | some oid =>
          match lookupId db.savedSessions oid with
          | some orig => if orig.userId = args.userId then some oid else none
          | none => none
        | none => none
      match resaveTarget with
      | some oid =>
        let db1 := patchSavedSession db oid (fun ss =>
          { ss with
            name := jsOrString args.name session.name,
            code := session.code,
            description := some (jsOrString args.description
              ("Updated from loaded session: " ++ session.name)),
            updatedAt := now,
            tags := some (args.tags.getD []),
            isPrivate := args.isPrivate.getD (!session.isPublic) })
        .ok (db1, oid, true)
      | none =>
        let savedCount := db.savedSessions.filter (fun pr => decide (pr.2.userId = args.userId))
        if savedCount.length ≥ 10 then .error .saveLimitExceeded
        else
          match db.savedSessions.find? (fun pr =>
              decide (pr.2.userId = args.userId ∧
                pr.2.originalSessionId = some args.sessionId)) with
          | some _ => .error .duplicateSave
          | none =>
            let newSaved : SavedSession :=
              { userId := args.userId,
                originalSessionId := some args.sessionId,
                name := jsOrString args.name session.name,
                language := session.language,
                code := session.code,
                description := some (jsOrString args.description (jsOrString session.description
                  ("Saved from collaborative session: " ++ session.name))),
                createdAt := now, updatedAt := now,
                tags := some (args.tags.getD []),
                isPrivate := args.isPrivate.getD (!session.isPublic),
                maxUsers := some session.maxUsers,
                sessionSettings := session.sessionSettings }
            .ok ({ db with
                    savedSessions := db.savedSessions ++ [(db.nextId, newSaved)],
                    nextId := db.nextId + 1 },
                 db.nextId, false)

/-- `loadSavedSession` (collaboration.ts): resolve the saved session; only its
owner may load a private one; enforce the 2-session quota
(`SESSION_LIMIT_EXCEEDED`, total count over `by_creator_id`); then insert a
fresh live session (status `active`, `activeUsers` = the loader, back-reference
`originalSavedSessionId`) and the loader's write-permission participant row
(which the source inserts without a `lastSeen` field). -/
def loadSavedSession (db : DB) (savedSessionId : Nat) (userId : String)
    (sessionName : Option String) (makePublic : Option Bool) (now : Nat) (freshKey : String) :
    Except SessionError (DB × Nat × String) :=
  match lookupId db.savedSessions savedSessionId with
  | none => .error .savedSessionNotFound
  | some saved =>
    if saved.userId ≠ userId ∧ saved.isPrivate then .error .loadPermissionDenied
    else
      let totalCount := (db.sessions.filter (fun pr => decide (pr.2.creatorId = userId))).length
      if totalCount ≥ 2 then .error .sessionLimitExceeded
      else
        let sessionId := db.nextId
        let session : Session :=
          { name := jsOrString sessionName (saved.name ++ " (Loaded)"),
            language := saved.language, code := saved.code,
            description := saved.description, creatorId := userId, sessionKey := freshKey,
            isPublic := makePublic.getD (!saved.isPrivate), isActive := true,
            status := some .active, createdAt := now, lastActivity := now,
            maxUsers := jsOrNat saved.maxUsers 5, activeUsers := [userId],
            expiresAt := none,
            originalSavedSessionId := some savedSessionId,
            sessionSettings := saved.sessionSettings }
        let participant : Participant :=
          { sessionId := sessionId, userId := userId, userName := "User",
            permission := .write, joinedAt := now, lastActive := now,
            lastSeen := none, isActive := true }
        .ok ({ db with
                sessions := db.sessions ++ [(sessionId, session)],
                participants := db.participants ++ [(db.nextId + 1, participant)],
                nextId := db.nextId + 2 },
             sessionId, freshKey)

/-! ### Concrete stores used as witnesses and counterexamples -/

/-- A template session document for concrete test stores. -/
def baseSession : Session :=
  { name := "s", creatorId := "A", sessionKey := "k", language := "plain",
    code := "", description := none, isPublic := true, isActive := true,
    activeUsers := [], maxUsers := 5, createdAt := 0, lastActivity := 0,
    status := some .active, expiresAt := none, originalSavedSessionId := none,
    sessionSettings := none }

/-- A template participant document for concrete test stores. -/
def baseParticipant : Participant :=
  { sessionId := 0, userId := "A", userName := "A", permission := .write,
    joinedAt := 0, lastActive := 0, isActive := true, lastSeen := some 0 }

/-- A template saved-session document for concrete test stores. -/
def baseSavedSession : SavedSession :=
  { userId := "A", originalSessionId := none, name := "sv", language := "plain",
    code := "c", description := none, createdAt := 0, updatedAt := 0,
    tags := none, isPrivate := false, maxUsers := none, sessionSettings := none }

/-- An empty record store. -/
def emptyDB : DB :=
  { users := [], sessions := [], participants := [], codeOperations := [],
    sessionMessages := [], savedSessions := [], nextId := 0 }

/-- Store for the C1 scenario: session 0 with members A and B, both
participants live at time 0. -/
def exDb1 : DB :=
  { emptyDB with
    sessions := [(0, { baseSession with activeUsers := ["A", "B"] })],
    participants := [(1, baseParticipant),
                     (2, { baseParticipant with userId := "B", userName := "B" })],
    nextId := 3 }

/-- Store for the C2 counterexample: a legacy session without a `status` field
(`isActive = true`), one fresh participant. -/
def exDb2 : DB :=
  { emptyDB with
    sessions := [(0, { baseSession with status := none })],
    participants := [(1, baseParticipant)],
    nextId := 2 }

/-- Store for the C3 witness: one active session whose single participant is
stale at the sweep time used in the witness. -/
def exDb3 : DB :=
  { emptyDB with
    sessions := [(0, { baseSession with activeUsers := ["A"] })],
    participants := [(1, baseParticipant)],
    nextId := 2 }

/-- A session scheduled for deletion with a passed/pending deadline and two
stale member entries, at the two-seat capacity. -/
def schedSession : Session :=
  { baseSession with
    status := some .scheduledForDeletion,
    isActive := false,
    expiresAt := some 3600000,
    activeUsers := ["B", "C"],
    maxUsers := 2 }

/-- Store for the C4 witness: session 0 is expired (deadline 3600000) with a
participant, an operation-log entry and a chat message; session 5 is healthy. -/
def exDb4 : DB :=
  { emptyDB with
    sessions := [(0, { schedSession with activeUsers := [] }), (5, baseSession)],
    participants := [(1, { baseParticipant with isActive := false }),
                     (6, { baseParticipant with sessionId := 5 })],
    codeOperations := [{ sessionId := 0, userId := "A",
                         operation := { type := "insert", position := 0, content := "x",
                                        length := none },
                         timestamp := 0 }],
    sessionMessages := [{ sessionId := 0, userId := "A", userName := "A", message := "m",
                          timestamp := 0 }],
    nextId := 7 }

/-- Store for the C5 scenario: session 0 stores code `"x"`; its write-permission
participant was last refreshed at time 0. -/
def exDb5 : DB :=
  { emptyDB with
    sessions := [(0, { baseSession with code := "x" })],
    participants := [(1, baseParticipant)],
    nextId := 2 }

/-- Store for the C6 witness: session 0 at its two-seat capacity with members
A and B. -/
def exDb6 : DB :=
  { emptyDB with
    sessions := [(0, { baseSession with activeUsers := ["A", "B"], maxUsers := 2 })],
    participants := [(1, baseParticipant)],
    nextId := 2 }

/-- Store for C7: session 0 is scheduled for deletion while its `activeUsers`
still lists the two stale members B and C of a two-seat session (reachable by
a `leaveSession` call from a third user id, which leaves `activeUsers` intact
and then schedules the session because every participant is stale). -/
def exDb7 : DB :=
  { emptyDB with
    sessions := [(0, schedSession)],
    participants := [(1, { baseParticipant with userId := "B", userName := "B" }),
                     (2, { baseParticipant with userId := "C", userName := "C" })],
    nextId := 3 }

/-- Store for the C8 witness: user A owns sessions 0 and 1 and has one saved
session (id 2). -/
def exDb8 : DB :=
  { emptyDB with
    sessions := [(0, baseSession), (1, { baseSession with name := "t" })],
    savedSessions := [(2, baseSavedSession)],
    nextId := 3 }

/-- The C8 witness store with only one owned session. -/
def exDb8b : DB :=
  { exDb8 with sessions := [(0, baseSession)] }

/-- Creation arguments used by the C8 witness. -/
def exCreateArgs : CreateSessionArgs :=
  { name := "n", creatorId := "A", language := "plain", code := some "c",
    description := none, isPublic := true, maxUsers := none, sessionSettings := none }

/-- Save arguments used for C9: user A saving session 0 with no overrides. -/
def exSaveArgs : SaveArgs :=
  { sessionId := 0, userId := "A", name := none, description := none,
    tags := none, isPrivate := none }

/-- The i-th saved session of the C9 counterexample store: ten saved sessions
owned by A, the first of which originates from live session 0. -/
def mkSavedAt (i : Nat) : Nat × SavedSession :=
  (100 + i, { baseSavedSession with originalSessionId := if i = 0 then some 0 else none })

/-- Store for the C9 counterexample: user A is a participant of session 0,
already saved it (saved session 100), and sits exactly at the 10-save cap. -/
def exDb9 : DB :=
  { emptyDB with
    sessions := [(0, baseSession)],
    participants := [(1, baseParticipant)],
    savedSessions := (List.range 10).map mkSavedAt,
    nextId := 200 }

/-- Store for the C9 witness: like `exDb9` but below the cap — user A has only
the one saved session originating from session 0. -/
def exDb9b : DB :=
  { emptyDB with
    sessions := [(0, baseSession)],
    participants := [(1, baseParticipant)],
    savedSessions := [(100, { baseSavedSession with originalSessionId := some 0 })],
    nextId := 200 }

/-- The (document id, session id) skeleton of the participant table.  Sweep
patches rewrite liveness fields only, so they preserve this skeleton. -/
def participantSkeleton (db : DB) : List (Nat × Nat) :=
  db.participants.map (fun pr => (pr.1, pr.2.sessionId))

/-- No trace of session `sid` remains in the store: no session record, no
participant rows, no operation-log entries, no chat messages. -/
def sessionGone (db : DB) (sid : Nat) : Prop :=
  lookupId db.sessions sid = none ∧
  participantEntriesOf db sid = [] ∧
  db.codeOperations.filter (fun op => decide (op.sessionId = sid)) = [] ∧
  db.sessionMessages.filter (fun m => decide (m.sessionId = sid)) = []

/-- The store a successful C10 witness call produces. -/
def exDb10after : DB :=
  match updateSessionCode exDb6 0 "A" "newcode" none 6000 with
  | .ok db' => db'
  | .error _ => emptyDB

/-! ### Store lemmas -/

/-- Unfolding equation of `lookupId` on a nonempty table. -/
theorem lookupId_cons {α : Type} (k : Nat) (v : α) (tl : List (Nat × α)) (i : Nat) :
    lookupId ((k, v) :: tl) i = if k = i then some v else lookupId tl i := rfl

/-- Unfolding equation of `patchTable` on a nonempty table. -/
theorem patchTable_cons {α : Type} (k : Nat) (v : α) (tl : List (Nat × α)) (j : Nat)
    (f : α → α) :
    patchTable ((k, v) :: tl) j f =
      (if k = j then (k, f v) else (k, v)) :: patchTable tl j f := rfl

/-- Patching key `j` rewrites the looked-up record at `j` and nothing else. -/
theorem lookupId_patchTable {α : Type} (l : List (Nat × α)) (j i : Nat) (f : α → α) :
    lookupId (patchTable l j f) i =
      if i = j then (lookupId l i).map f else lookupId l i := by
  induction l with
  | nil => simp [patchTable, lookupId]
  | cons hd tl ih =>
    obtain ⟨k, v⟩ := hd
    rw [patchTable_cons]
    by_cases hkj : k = j
    · subst hkj
      by_cases hki : k = i
      · subst hki
        simp [lookupId_cons]
      · simp [lookupId_cons, hki, ih]
    · by_cases hki : k = i
      · subst hki
        simp [lookupId_cons, hkj]
      · simp [lookupId_cons, hkj, hki, ih]

/-- A lookup misses exactly when no entry carries the key. -/
theorem lookupId_eq_none {α : Type} (l : List (Nat × α)) (i : Nat) :
    lookupId l i = none ↔ ∀ p ∈ l, p.1 ≠ i := by
  induction l with
  | nil => simp [lookupId]
  | cons hd tl ih =>
    obtain ⟨k, v⟩ := hd
    by_cases hk : k = i <;> simp_all [lookupId]

/-- A successful lookup is a member of the table. -/
theorem lookupId_mem {α : Type} {l : List (Nat × α)} {i : Nat} {v : α}
    (h : lookupId l i = some v) : (i, v) ∈ l := by
  induction l with
  | nil => simp [lookupId] at h
  | cons hd tl ih =>
    obtain ⟨k, w⟩ := hd
    by_cases hk : k = i
    · subst hk
      have hw : w = v := by simpa [lookupId] using h
      subst hw
      exact List.mem_cons_self _ _
    · simp only [lookupId, if_neg hk] at h
      exact List.mem_cons_of_mem _ (ih h)

/-- Lookup skips a prefix that misses the key. -/
theorem lookupId_append_left_none {α : Type} {l1 : List (Nat × α)} (l2 : List (Nat × α))
    (i : Nat) (h : lookupId l1 i = none) :
    lookupId (l1 ++ l2) i = lookupId l2 i := by
  induction l1 with
  | nil => rfl
  | cons hd tl ih =>
    obtain ⟨k, v⟩ := hd
    by_cases hk : k = i <;> simp_all [lookupId]

/-- Filtering cannot make a missing key appear. -/
theorem lookupId_filter_none {α : Type} {l : List (Nat × α)} {i : Nat}
    (q : Nat × α → Bool) (h : lookupId l i = none) :
    lookupId (l.filter q) i = none := by
  rw [lookupId_eq_none] at h ⊢
  exact fun p hp => h p (List.mem_of_mem_filter hp)

/-- Removing a key from a table makes its lookup miss. -/
theorem lookupId_filter_ne_self {α : Type} (l : List (Nat × α)) (i : Nat) :
    lookupId (l.filter (fun p => decide (p.1 ≠ i))) i = none := by
  rw [lookupId_eq_none]
  intro p hp
  have := List.of_mem_filter hp
  simpa using this

/-- Patching preserves the key list of a table. -/
theorem keys_patchTable {α : Type} (l : List (Nat × α)) (j : Nat) (f : α → α) :
    (patchTable l j f).map Prod.fst = l.map Prod.fst := by
  unfold patchTable
  rw [List.map_map]
  apply List.map_congr_left
  intro p _
  by_cases h : p.1 = j <;> simp [h]

/-- Lookup of a freshly inserted record. -/
theorem lookupId_singleton {α : Type} (k : Nat) (v : α) : lookupId [(k, v)] k = some v := by
  simp [lookupId_cons]

/-- In a table with nodup keys, the record at a key is unique. -/
theorem nodup_keys_eq {α : Type} {l : List (Nat × α)} (h : (l.map Prod.fst).Nodup)
    {k : Nat} {a b : α} (ha : (k, a) ∈ l) (hb : (k, b) ∈ l) : a = b := by
  induction l with
  | nil => cases ha
  | cons hd tl ih =>
    rw [List.map_cons, List.nodup_cons] at h
    rcases List.mem_cons.mp ha with ha' | ha'
    · rcases List.mem_cons.mp hb with hb' | hb'
      · rw [← ha'] at hb'
        exact congrArg Prod.snd hb'.symm
      · exfalso
        apply h.1
        have hk : hd.1 = k := by rw [← ha']
        rw [hk]
        exact List.mem_map_of_mem Prod.fst hb'
    · rcases List.mem_cons.mp hb with hb' | hb'
      · exfalso
        apply h.1
        have hk : hd.1 = k := by rw [← hb']
        rw [hk]
        exact List.mem_map_of_mem Prod.fst ha'
      · exact ih h.2 ha' hb'

/-! ### Frame facts for the patch operations -/

@[simp] theorem patchParticipant_sessions (db : DB) (pid : Nat) (f : Participant → Participant) :
    (patchParticipant db pid f).sessions = db.sessions := rfl

@[simp] theorem patchParticipant_codeOperations (db : DB) (pid : Nat)
    (f : Participant → Participant) :
    (patchParticipant db pid f).codeOperations = db.codeOperations := rfl

@[simp] theorem patchParticipant_sessionMessages (db : DB) (pid : Nat)
    (f : Participant → Participant) :
    (patchParticipant db pid f).sessionMessages = db.sessionMessages := rfl

@[simp] theorem patchParticipant_savedSessions (db : DB) (pid : Nat)
    (f : Participant → Participant) :
    (patchParticipant db pid f).savedSessions = db.savedSessions := rfl

@[simp] theorem patchSession_participants (db : DB) (sid : Nat) (f : Session → Session) :
    (patchSession db sid f).participants = db.participants := rfl

@[simp] theorem patchSession_codeOperations (db : DB) (sid : Nat) (f : Session → Session) :
    (patchSession db sid f).codeOperations = db.codeOperations := rfl

@[simp] theorem patchSession_sessionMessages (db : DB) (sid : Nat) (f : Session → Session) :
    (patchSession db sid f).sessionMessages = db.sessionMessages := rfl

@[simp] theorem patchSession_savedSessions (db : DB) (sid : Nat) (f : Session → Session) :
    (patchSession db sid f).savedSessions = db.savedSessions := rfl

@[simp] theorem patchSession_sessions (db : DB) (sid : Nat) (f : Session → Session) :
    (patchSession db sid f).sessions = patchTable db.sessions sid f := rfl

@[simp] theorem patchParticipant_participants (db : DB) (pid : Nat)
    (f : Participant → Participant) :
    (patchParticipant db pid f).participants = patchTable db.participants pid f := rfl

@[simp] theorem sweepParticipantStep_sessions (now : Nat) (acc : DB) (pr : Nat × Participant) :
    (sweepParticipantStep now acc pr).sessions = acc.sessions := by
  simp only [sweepParticipantStep]
  split <;> rfl

/-! ### The participant skeleton: keys and session ownership are sweep-invariant -/

theorem skeleton_patchParticipant (db : DB) (pid : Nat) (f : Participant → Participant)
    (hf : ∀ q, (f q).sessionId = q.sessionId) :
    participantSkeleton (patchParticipant db pid f) = participantSkeleton db := by
  unfold participantSkeleton patchParticipant patchTable
  simp only [List.map_map]
  apply List.map_congr_left
  intro p _
  by_cases h : p.1 = pid <;> simp [h, hf]

theorem skeleton_sweepParticipantStep (now : Nat) (acc : DB) (pr : Nat × Participant) :
    participantSkeleton (sweepParticipantStep now acc pr) = participantSkeleton acc := by
  simp only [sweepParticipantStep]
  split
  · exact skeleton_patchParticipant _ _ _ (fun q => rfl)
  · rfl

theorem skeleton_sweepFold (now : Nat) (l : List (Nat × Participant)) (acc : DB) :
    participantSkeleton (l.foldl (sweepParticipantStep now) acc) = participantSkeleton acc := by
  induction l generalizing acc with
  | nil => rfl
  | cons hd tl ih => rw [List.foldl_cons, ih, skeleton_sweepParticipantStep]

theorem sessions_sweepFold (now : Nat) (l : List (Nat × Participant)) (acc : DB) :
    (l.foldl (sweepParticipantStep now) acc).sessions = acc.sessions := by
  induction l generalizing acc with
  | nil => rfl
  | cons hd tl ih => rw [List.foldl_cons, ih, sweepParticipantStep_sessions]

/-- The participant keys are the skeleton's first components. -/
theorem keys_eq_skeleton_fst (db : DB) :
    db.participants.map Prod.fst = (participantSkeleton db).map Prod.fst := by
  unfold participantSkeleton
  rw [List.map_map]
  rfl

/-- Transfer a "every record under this key belongs to session `sid`" fact
along an equal skeleton. -/
theorem skeleton_key_sessionId {acc db : DB}
    (hsk : participantSkeleton acc = participantSkeleton db) {pid sid : Nat}
    (hdb : ∀ q, (pid, q) ∈ db.participants → q.sessionId = sid) :
    ∀ q, (pid, q) ∈ acc.participants → q.sessionId = sid := by
  intro q hq
  have h1 : (pid, q.sessionId) ∈ participantSkeleton acc :=
    List.mem_map_of_mem (fun pr => (pr.1, pr.2.sessionId)) hq
  rw [hsk] at h1
  obtain ⟨pr, hpr, heq⟩ := List.mem_map.mp h1
  obtain ⟨h2, h3⟩ := Prod.mk.injEq _ _ _ _ ▸ heq
  rw [← h3]
  exact hdb pr.2 (by rwa [show pr = (pid, pr.2) from Prod.ext h2 rfl] at hpr)

/-- Patching one key whose records all belong to session `sid`, with a patch
that preserves `sessionId`, leaves the collected rows of any other session
untouched. -/
theorem filter_patchTable_of_key (l : List (Nat × Participant)) (pid : Nat)
    (f : Participant → Participant) (hf : ∀ q, (f q).sessionId = q.sessionId)
    (sid i : Nat) (hne : i ≠ sid)
    (hkey : ∀ q, (pid, q) ∈ l → q.sessionId = sid) :
    (patchTable l pid f).filter (fun pr => decide (pr.2.sessionId = i)) =
      l.filter (fun pr => decide (pr.2.sessionId = i)) := by
  induction l with
  | nil => rfl
  | cons hd tl ih =>
    obtain ⟨k, q⟩ := hd
    rw [patchTable_cons]
    have ihtl := ih (fun q hq => hkey q (List.mem_cons_of_mem _ hq))
    by_cases hk : k = pid
    · subst hk
      have hq : q.sessionId = sid := hkey q (List.mem_cons_self _ _)
      rw [if_pos rfl, List.filter_cons, List.filter_cons]
      have h1 : (decide ((f q).sessionId = i)) = false := by
        simp [hf, hq, Ne.symm hne]
      have h2 : (decide (q.sessionId = i)) = false := by
        simp [hq, Ne.symm hne]
      rw [h1, h2]
      simpa using ihtl
    · rw [if_neg hk, List.filter_cons, List.filter_cons, ihtl]

/-- Collected rows of a session other than the patched one are unchanged by a
sweep participant patch. -/
theorem sweepParticipantStep_parts (now : Nat) (acc : DB) (pr : Nat × Participant)
    (sid i : Nat) (hne : i ≠ sid)
    (hkey : ∀ q, (pr.1, q) ∈ acc.participants → q.sessionId = sid) :
    participantEntriesOf (sweepParticipantStep now acc pr) i = participantEntriesOf acc i := by
  simp only [sweepParticipantStep]
  split
  · simp only [participantEntriesOf, patchParticipant_participants]
    refine filter_patchTable_of_key acc.participants pr.1 _ ?_ sid i hne hkey
    intro q
    rfl
  · rfl

/-- The sweep's participant loop over the collected rows of session `sid`
leaves every other session's collected rows unchanged. -/
theorem sweepFold_parts (now sid i : Nat) (hne : i ≠ sid) (db : DB)
    (hnd : (db.participants.map Prod.fst).Nodup) :
    ∀ (l : List (Nat × Participant)) (acc : DB),
      (∀ pr ∈ l, pr ∈ db.participants ∧ pr.2.sessionId = sid) →
      participantSkeleton acc = participantSkeleton db →
      participantEntriesOf (l.foldl (sweepParticipantStep now) acc) i
        = participantEntriesOf acc i := by
  intro l
  induction l with
  | nil => intro acc _ _; rfl
  | cons hd tl ih =>
    intro acc hmem hsk
    rw [List.foldl_cons]
    have hhd := hmem hd (List.mem_cons_self _ _)
    have hdbkey : ∀ q, (hd.1, q) ∈ db.participants → q.sessionId = sid := by
      intro q hq
      have he : q = hd.2 := nodup_keys_eq hnd hq hhd.1
      rw [he]
      exact hhd.2
    have hkey := skeleton_key_sessionId hsk hdbkey
    rw [ih _ (fun pr hpr => hmem pr (List.mem_cons_of_mem _ hpr))
        (by rw [skeleton_sweepParticipantStep]; exact hsk)]
    exact sweepParticipantStep_parts now acc hd sid i hne hkey

/-- Collected rows are insensitive to session patches. -/
theorem parts_patchSession (db : DB) (sid : Nat) (f : Session → Session) (i : Nat) :
    participantEntriesOf (patchSession db sid f) i = participantEntriesOf db i := rfl

/-- The participant skeleton is insensitive to session patches. -/
theorem skeleton_patchSession (db : DB) (sid : Nat) (f : Session → Session) :
    participantSkeleton (patchSession db sid f) = participantSkeleton db := rfl

/-- What one sweep iteration writes to its own session record: schedule for
deletion when no live participant remains, otherwise refresh `activeUsers`. -/
theorem processSessionActivity_lookup_self (db : DB) (sid now : Nat) :
    lookupId (processSessionActivity db sid now).sessions sid =
      (lookupId db.sessions sid).map (fun s =>
        if (liveUserIdsAt (participantEntriesOf db sid) now).length = 0 then
          { s with status := some .scheduledForDeletion, isActive := false, activeUsers := [],
                   expiresAt := some (now + EXPIRY_DELAY), lastActivity := now }
        else
          { s with activeUsers := liveUserIdsAt (participantEntriesOf db sid) now,
                   lastActivity := now }) := by
  simp only [processSessionActivity]
  split
  · next h =>
    simp only [patchSession_sessions, lookupId_patchTable, if_pos rfl, sessions_sweepFold]
    cases lookupId db.sessions sid <;> simp [h]
  · next h =>
    simp only [patchSession_sessions, lookupId_patchTable, if_pos rfl, sessions_sweepFold]
    cases lookupId db.sessions sid <;> simp [h]

/-- One sweep iteration leaves every other session record unchanged. -/
theorem processSessionActivity_lookup_other (db : DB) (sid now i : Nat) (hne : i ≠ sid) :
    lookupId (processSessionActivity db sid now).sessions i = lookupId db.sessions i := by
  simp only [processSessionActivity]
  split <;> simp [lookupId_patchTable, hne, sessions_sweepFold]

/-- One sweep iteration leaves every other session's collected rows unchanged. -/
theorem processSessionActivity_parts (db : DB) (sid now i : Nat) (hne : i ≠ sid)
    (hnd : (db.participants.map Prod.fst).Nodup) :
    participantEntriesOf (processSessionActivity db sid now) i = participantEntriesOf db i := by
  have hfold := sweepFold_parts now sid i hne db hnd (participantEntriesOf db sid) db
      (fun pr hpr => by
        have hpr' : pr ∈ db.participants.filter (fun pr => decide (pr.2.sessionId = sid)) := hpr
        have hm := List.mem_filter.mp hpr'
        exact ⟨hm.1, by simpa using hm.2⟩) rfl
  simp only [processSessionActivity]
  split <;> rw [parts_patchSession] <;> exact hfold

/-- One sweep iteration preserves the participant skeleton. -/
theorem processSessionActivity_skeleton (db : DB) (sid now : Nat) :
    participantSkeleton (processSessionActivity db sid now) = participantSkeleton db := by
  simp only [processSessionActivity]
  split <;> rw [skeleton_patchSession] <;> exact skeleton_sweepFold _ _ _

/-- Sweeping a batch of sessions other than `sid` changes neither session
`sid`'s record, nor its collected participant rows, nor the participant
skeleton. -/
theorem sweepOuterFold_frame (now sid : Nat) :
    ∀ (l : List (Nat × Session)) (acc : DB),
      (∀ pr ∈ l, pr.1 ≠ sid) →
      (acc.participants.map Prod.fst).Nodup →
      lookupId (l.foldl (fun a pr => processSessionActivity a pr.1 now) acc).sessions sid
          = lookupId acc.sessions sid
      ∧ participantEntriesOf (l.foldl (fun a pr => processSessionActivity a pr.1 now) acc) sid
          = participantEntriesOf acc sid
      ∧ participantSkeleton (l.foldl (fun a pr => processSessionActivity a pr.1 now) acc)
          = participantSkeleton acc := by
  intro l
  induction l with
  | nil => intro acc _ _; exact ⟨rfl, rfl, rfl⟩
  | cons hd tl ih =>
    intro acc hne hnd
    rw [List.foldl_cons]
    have hhdne : sid ≠ hd.1 := Ne.symm (hne hd (List.mem_cons_self _ _))
    have hnd' : ((processSessionActivity acc hd.1 now).participants.map Prod.fst).Nodup := by
      rw [keys_eq_skeleton_fst, processSessionActivity_skeleton, ← keys_eq_skeleton_fst]
      exact hnd
    obtain ⟨h1, h2, h3⟩ := ih (processSessionActivity acc hd.1 now)
        (fun pr hpr => hne pr (List.mem_cons_of_mem _ hpr)) hnd'
    refine ⟨?_, ?_, ?_⟩
    · rw [h1, processSessionActivity_lookup_other acc hd.1 now sid hhdne]
    · rw [h2, processSessionActivity_parts acc hd.1 now sid hhdne hnd]
    · rw [h3, processSessionActivity_skeleton]

/-- What the 10-minute sweep writes to an active session's record, in terms of
the live ids derived from its pre-sweep participant rows: schedule for deletion
when none is live, otherwise refresh `activeUsers` to the live set.  Key
uniqueness of the two tables is the store's id-uniqueness guarantee. -/
theorem checkAllSessionsActivity_lookup (db : DB) (now sid : Nat) (s : Session)
    (hndS : (db.sessions.map Prod.fst).Nodup)
    (hndP : (db.participants.map Prod.fst).Nodup)
    (hs : lookupId db.sessions sid = some s) (hact : s.isActive = true) :
    lookupId (checkAllSessionsActivity db now).sessions sid =
      some (if (liveUserIdsAt (participantEntriesOf db sid) now).length = 0 then
              { s with status := some .scheduledForDeletion, isActive := false,
                       activeUsers := [], expiresAt := some (now + EXPIRY_DELAY),
                       lastActivity := now }
            else
              { s with activeUsers := liveUserIdsAt (participantEntriesOf db sid) now,
                       lastActivity := now }) := by
  have hmem : (sid, s) ∈ db.sessions := lookupId_mem hs
  have hfil : (sid, s) ∈ db.sessions.filter (fun pr => pr.2.isActive) :=
    List.mem_filter.mpr ⟨hmem, hact⟩
  obtain ⟨l1, l2, hsplit⟩ := List.append_of_mem hfil
  have hndfil : ((db.sessions.filter (fun pr => pr.2.isActive)).map Prod.fst).Nodup :=
    List.Nodup.sublist (List.Sublist.map Prod.fst (List.filter_sublist db.sessions)) hndS
  rw [hsplit] at hndfil
  rw [List.map_append, List.map_cons] at hndfil
  have hmid := List.nodup_cons.mp (List.nodup_middle.mp hndfil)
  have hk1 : ∀ pr ∈ l1, pr.1 ≠ sid := by
    intro pr hpr he
    apply hmid.1
    apply List.mem_append.mpr
    left
    rw [← he]
    exact List.mem_map.mpr ⟨pr, hpr, rfl⟩
  have hk2 : ∀ pr ∈ l2, pr.1 ≠ sid := by
    intro pr hpr he
    apply hmid.1
    apply List.mem_append.mpr
    right
    rw [← he]
    exact List.mem_map.mpr ⟨pr, hpr, rfl⟩
  unfold checkAllSessionsActivity
  rw [hsplit, List.foldl_append, List.foldl_cons]
  obtain ⟨hA1, hA2, hA3⟩ := sweepOuterFold_frame now sid l1 db hk1 hndP
  have hndA : ((l1.foldl (fun a pr => processSessionActivity a pr.1 now) db).participants.map
      Prod.fst).Nodup := by
    rw [keys_eq_skeleton_fst, hA3, ← keys_eq_skeleton_fst]
    exact hndP
  have hndB : (((fun a pr => processSessionActivity a pr.1 now)
      (l1.foldl (fun a pr => processSessionActivity a pr.1 now) db)
      (sid, s)).participants.map Prod.fst).Nodup := by
    rw [keys_eq_skeleton_fst, processSessionActivity_skeleton, hA3, ← keys_eq_skeleton_fst]
    exact hndP
  obtain ⟨hB1, _, _⟩ := sweepOuterFold_frame now sid l2 _ hk2 hndB
  rw [hB1]
  have hself := processSessionActivity_lookup_self
      (l1.foldl (fun a pr => processSessionActivity a pr.1 now) db) sid now
  rw [hA1, hs, hA2] at hself
  exact hself

/-- A snapshot with no live participant yields an empty live-id list. -/
theorem liveUserIdsAt_nil (parts : List (Nat × Participant)) (now : Nat)
    (h : ∀ pr ∈ parts, isLiveAt now pr.2 = false) :
    liveUserIdsAt parts now = [] := by
  unfold liveUserIdsAt
  rw [List.filter_eq_nil_iff.mpr (fun pr hpr => by simp [h pr hpr])]
  rfl

/-- Claim C1 (code evaluation at the failing input): user A leaves session 0 at
time 0 (`leaveSession` marks A's row inactive but also refreshes its
`lastSeen` to the departure time); the sweep runs one minute later with B
fresh.  The sweep's liveness test reads only the timestamps and ignores the
`isActive` flag, so it counts the departed A as live again: the session stays
`active` but `activeUsers` comes back as `["A", "B"]`, not the `["B"]` the
claim (and the spec's scenario 3) requires. -/
theorem C1_departed_user_counted_live :
    ((leaveSession exDb1 0 "A" 0).toOption.map (fun db1 =>
        (lookupId (checkAllSessionsActivity db1 60000).sessions 0).map
          (fun s => (s.status, s.activeUsers))))
      = some (some (some .active, ["A", "B"])) := by
  decide

/-- Claim C2 (counterexample): a legacy session record without a `status`
field and with `isActive = true` is processed by the sweep (it sits in the
`by_is_active = true` snapshot) and has a live participant, yet after the
sweep its `status` is still missing — `checkAllSessionsActivity`, unlike
`checkSessionActivity`, never writes `status`/`expiresAt` in its live branch. -/
theorem C2_counterexample_status_not_promoted :
    (liveUserIdsAt (participantEntriesOf exDb2 0) 1000).length > 0 ∧
    (lookupId exDb2.sessions 0).map Session.isActive = some true ∧
    (lookupId (checkAllSessionsActivity exDb2 1000).sessions 0).map Session.status
      ≠ some (some .active) := by
  decide

/-- Claim C2 (amended): for every session processed by the sweep whose live
count is positive, the sweep refreshes `activeUsers` to exactly the live
participant ids and advances `lastActivity`, leaving every other field —
in particular `status`, `isActive` and `expiresAt` — unchanged.  (The claim's
"status is ensured active / stale expiresAt cleared" holds only for the
single-session `checkSessionActivity`, not for the cron sweep.) -/
theorem C2_sweep_live_refresh (db : DB) (now sid : Nat) (s : Session)
    (hndS : (db.sessions.map Prod.fst).Nodup)
    (hndP : (db.participants.map Prod.fst).Nodup)
    (hs : lookupId db.sessions sid = some s) (hact : s.isActive = true)
    (hlive : liveUserIdsAt (participantEntriesOf db sid) now ≠ []) :
    lookupId (checkAllSessionsActivity db now).sessions sid =
      some { s with activeUsers := liveUserIdsAt (participantEntriesOf db sid) now,
                    lastActivity := now } := by
  rw [checkAllSessionsActivity_lookup db now sid s hndS hndP hs hact]
  rw [if_neg (fun h => hlive (List.length_eq_zero.mp h))]

/-- Witness for C2 (amended) at the concrete store `exDb2`: the live set is
`["A"]`, and after the sweep the record differs from the pre-state only in
`activeUsers` and `lastActivity` (the missing `status` stays missing). -/
theorem C2_sweep_live_refresh_witness :
    lookupId (checkAllSessionsActivity exDb2 1000).sessions 0 =
      some { baseSession with status := none, activeUsers := ["A"], lastActivity := 1000 } :=
  C2_sweep_live_refresh exDb2 1000 0 { baseSession with status := none }
    (by decide) (by decide) (by decide) (by decide) (by decide)

/-- Claim C3: a sweep over a session (`isActive = true`, hence in the sweep's
snapshot) all of whose participants fail the freshness test — `sweepTime -
lastSeen > INACTIVE_THRESHOLD`, falling back to `lastActive` when `lastSeen`
is absent (see `isLiveAt`) — sets `status = scheduled_for_deletion`,
`isActive = false`, empties `activeUsers`, and stamps
`expiresAt = sweepTime + EXPIRY_DELAY`. -/
theorem C3_sweep_schedules_when_all_stale (db : DB) (now sid : Nat) (s : Session)
    (hndS : (db.sessions.map Prod.fst).Nodup)
    (hndP : (db.participants.map Prod.fst).Nodup)
    (hs : lookupId db.sessions sid = some s) (hact : s.isActive = true)
    (hstale : ∀ pr ∈ participantEntriesOf db sid, isLiveAt now pr.2 = false) :
    lookupId (checkAllSessionsActivity db now).sessions sid =
      some { s with status := some .scheduledForDeletion, isActive := false,
                    activeUsers := [], expiresAt := some (now + EXPIRY_DELAY),
                    lastActivity := now } := by
  rw [checkAllSessionsActivity_lookup db now sid s hndS hndP hs hact]
  rw [liveUserIdsAt_nil _ _ hstale]
  rfl

/-- Witness for C3 at the concrete store `exDb3`: the single participant's
`lastSeen = 0` is stale at sweep time 301000 (> 5 minutes), so the session is
scheduled for deletion with deadline 301000 + one hour. -/
theorem C3_sweep_schedules_when_all_stale_witness :
    lookupId (checkAllSessionsActivity exDb3 301000).sessions 0 =
      some { baseSession with
             status := some .scheduledForDeletion, isActive := false,
             activeUsers := [], expiresAt := some (301000 + EXPIRY_DELAY),
             lastActivity := 301000 } :=
  C3_sweep_schedules_when_all_stale exDb3 301000 0 { baseSession with activeUsers := ["A"] }
    (by decide) (by decide) (by decide) (by decide) (by decide)

/-! ### The expiry sweep (C4) -/

/-- Keeping only records outside a session then selecting that session yields
nothing. -/
theorem filter_ne_then_eq {α : Type} (l : List α) (f : α → Nat) (sid : Nat) :
    (l.filter (fun a => decide (f a ≠ sid))).filter (fun a => decide (f a = sid)) = [] := by
  apply List.filter_eq_nil_iff.mpr
  intro a ha
  have h1 := List.mem_filter.mp ha
  simp only [decide_eq_true_eq] at h1 ⊢
  exact h1.2

/-- An empty selection stays empty under any further restriction of the
table. -/
theorem filter_nil_of_filter_nil {α : Type} {l : List α} {q : α → Bool}
    (h : l.filter q = []) (p : α → Bool) : (l.filter p).filter q = [] := by
  apply List.filter_eq_nil_iff.mpr
  intro a ha
  exact (List.filter_eq_nil_iff.mp h) a (List.mem_of_mem_filter ha)

/-- A cascade delete erases every trace of its session. -/
theorem cascadeDelete_clears (db : DB) (sid : Nat) :
    sessionGone (cascadeDeleteSession db sid) sid := by
  refine ⟨lookupId_filter_ne_self _ _, ?_, ?_, ?_⟩
  · exact filter_ne_then_eq db.participants (fun pr => pr.2.sessionId) sid
  · exact filter_ne_then_eq db.codeOperations (fun op => op.sessionId) sid
  · exact filter_ne_then_eq db.sessionMessages (fun m => m.sessionId) sid

/-- A cascade delete of any session preserves the absence of another. -/
theorem cascadeDelete_preserves (db : DB) (j sid : Nat) (h : sessionGone db sid) :
    sessionGone (cascadeDeleteSession db j) sid := by
  obtain ⟨h1, h2, h3, h4⟩ := h
  exact ⟨lookupId_filter_none _ h1, filter_nil_of_filter_nil h2 _,
    filter_nil_of_filter_nil h3 _, filter_nil_of_filter_nil h4 _⟩

/-- Once a session is gone, the remaining teardowns of the expiry sweep keep
it gone. -/
theorem cleanupFold_preserves (fails : Nat → Bool) (sid : Nat)
    (l : List (Nat × Session)) :
    ∀ acc : DB, sessionGone acc sid →
      sessionGone (l.foldl
        (fun a pr => if fails pr.1 then a else cascadeDeleteSession a pr.1) acc) sid := by
  induction l with
  | nil => intro acc h; exact h
  | cons hd tl ih =>
    intro acc h
    rw [List.foldl_cons]
    apply ih
    split
    · exact h
    · exact cascadeDelete_preserves acc hd.1 sid h

/-- If the batch contains session `sid` and its teardown does not fail, the
expiry sweep erases every trace of it. -/
theorem cleanupFold_gone (fails : Nat → Bool) (sid : Nat) (hfail : fails sid = false)
    (l : List (Nat × Session)) (ht : ∃ t, (sid, t) ∈ l) :
    ∀ acc : DB,
      sessionGone (l.foldl
        (fun a pr => if fails pr.1 then a else cascadeDeleteSession a pr.1) acc) sid := by
  induction l with
  | nil => exact absurd ht (by simp)
  | cons hd tl ih =>
    intro acc
    rw [List.foldl_cons]
    by_cases hk : hd.1 = sid
    · have hstep : (if fails hd.1 then acc else cascadeDeleteSession acc hd.1)
          = cascadeDeleteSession acc sid := by
        rw [hk, hfail]
        simp
      rw [hstep]
      exact cleanupFold_preserves fails sid tl _ (cascadeDelete_clears acc sid)
    · obtain ⟨t, htm⟩ := ht
      rcases List.mem_cons.mp htm with he | htl
      · exact absurd (congrArg Prod.fst he.symm) hk
      · exact ih ⟨t, htl⟩ _

/-- Claim C4: a session whose status is `scheduled_for_deletion` and whose
(nonzero) `expiresAt` deadline has passed is fully torn down by the expiry
sweep — session record, participant rows, operation-log entries and chat
messages all deleted, and a subsequent `getSession` fails with the not-found
error — even when the teardown of any other expired session fails (the
`fails` oracle is unconstrained elsewhere; each teardown runs in its own
`try/catch`).  `expiresAt` is nonzero on every record the code writes
(`now + EXPIRY_DELAY`); the hypothesis mirrors the JS truthiness guard
`session.expiresAt && session.expiresAt < now`. -/
theorem C4_expiry_sweep_cascades (db : DB) (now : Nat) (fails : Nat → Bool)
    (sid : Nat) (s : Session) (e : Nat)
    (hmem : (sid, s) ∈ db.sessions)
    (hst : s.status = some .scheduledForDeletion)
    (he : s.expiresAt = some e) (hpos : 0 < e) (hlt : e < now)
    (hfail : fails sid = false) :
    lookupId (cleanupExpiredSessions db now fails).sessions sid = none ∧
    participantEntriesOf (cleanupExpiredSessions db now fails) sid = [] ∧
    (cleanupExpiredSessions db now fails).codeOperations.filter
      (fun op => decide (op.sessionId = sid)) = [] ∧
    (cleanupExpiredSessions db now fails).sessionMessages.filter
      (fun m => decide (m.sessionId = sid)) = [] ∧
    getSession (cleanupExpiredSessions db now fails) sid
      = .error .sessionNotFound := by
  have hexp : isExpiredAt now s = true := by
    simp [isExpiredAt, jsTruthyNat, hst, he, hlt, Nat.pos_iff_ne_zero.mp hpos]
  have hfil : (sid, s) ∈ db.sessions.filter (fun pr => isExpiredAt now pr.2) :=
    List.mem_filter.mpr ⟨hmem, hexp⟩
  have hgone : sessionGone (cleanupExpiredSessions db now fails) sid :=
    cleanupFold_gone fails sid hfail _ ⟨s, hfil⟩ db
  obtain ⟨h1, h2, h3, h4⟩ := hgone
  refine ⟨h1, h2, h3, h4, ?_⟩
  unfold getSession
  rw [h1]

/-- Witness for C4 at the concrete store `exDb4`: session 0 expired at
3600000, the sweep runs at 4000000 with no teardown failure, and every trace
of session 0 is gone while `getSession` reports not-found. -/
theorem C4_expiry_sweep_cascades_witness :
    lookupId (cleanupExpiredSessions exDb4 4000000 (fun _ => false)).sessions 0 = none ∧
    participantEntriesOf (cleanupExpiredSessions exDb4 4000000 (fun _ => false)) 0 = [] ∧
    (cleanupExpiredSessions exDb4 4000000 (fun _ => false)).codeOperations.filter
      (fun op => decide (op.sessionId = 0)) = [] ∧
    (cleanupExpiredSessions exDb4 4000000 (fun _ => false)).sessionMessages.filter
      (fun m => decide (m.sessionId = 0)) = [] ∧
    getSession (cleanupExpiredSessions exDb4 4000000 (fun _ => false)) 0
      = .error .sessionNotFound :=
  C4_expiry_sweep_cascades exDb4 4000000 (fun _ => false) 0
    { schedSession with activeUsers := [] } 3600000
    (by decide) (by decide) (by decide) (by decide) (by decide) (by decide)

/-- Claim C5 (counterexample): calling `updateSessionCode` with the code
unchanged ("x" on a session storing "x") succeeds but is not a pure no-op:
when the caller's `lastActive` is more than 5 seconds old, the handler still
patches the participant row, so the store changes. -/
theorem C5_counterexample_participant_write :
    (updateSessionCode exDb5 0 "A" "x" none 6000).toOption
      = some (patchParticipant exDb5 1 (fun p => { p with lastActive := 6000 })) ∧
    patchParticipant exDb5 1 (fun p => { p with lastActive := 6000 }) ≠ exDb5 := by
  decide

/-- Claim C5 (amended): an `updateSessionCode` call with `code` equal to the
stored value, by a write-permission participant, appends no operation-log
entry, leaves the session record — hence the stored code and `lastActivity` —
unchanged, and leaves the whole store unchanged except that the caller's
participant `lastActive` is refreshed when (and only when) it is more than
5 seconds old (the server-side write throttle). -/
theorem C5_unchanged_code_frame (db : DB) (sid : Nat) (uid : String) (code : String)
    (operation : Option EditOperation) (now : Nat) (s : Session) (pid : Nat)
    (p : Participant)
    (hs : lookupId db.sessions sid = some s)
    (hp : findParticipantEntry db sid uid = some (pid, p))
    (hw : p.permission = .write)
    (hc : s.code = code) :
    updateSessionCode db sid uid code operation now =
      .ok (if now - p.lastActive > 5000 then
             patchParticipant db pid (fun q => { q with lastActive := now })
           else db) := by
  simp only [updateSessionCode, hs, hp]
  rw [if_neg (by simp [hw])]
  simp [hc]

/-- Witness for C5 (amended) at the concrete store `exDb5`: the only write of
the unchanged-code call is the throttled participant `lastActive` refresh. -/
theorem C5_unchanged_code_frame_witness :
    updateSessionCode exDb5 0 "A" "x" none 6000 =
      .ok (if 6000 - baseParticipant.lastActive > 5000 then
             patchParticipant exDb5 1 (fun q => { q with lastActive := 6000 })
           else exDb5) :=
  C5_unchanged_code_frame exDb5 0 "A" "x" none 6000 { baseSession with code := "x" } 1
    baseParticipant (by decide) (by decide) (by decide) (by decide)

/-- Claim C6: with the session's stored `activeUsers` at exactly `maxUsers`, a
join by a non-member fails with the capacity error ("Session is full", and by
transaction rollback adds nothing); a join by a user already listed in
`activeUsers` never takes the capacity branch, whatever the length. -/
theorem C6_capacity_check (db : DB) (sid : Nat) (uid : String) (now : Nat) (s : Session)
    (hs : lookupId db.sessions sid = some s) :
    (s.activeUsers.length = s.maxUsers → uid ∉ s.activeUsers →
      joinSession db sid uid now = .error .sessionFull) ∧
    (uid ∈ s.activeUsers → joinSession db sid uid now ≠ .error .sessionFull) := by
  constructor
  · intro hlen hmem
    simp only [joinSession, hs]
    rw [if_pos ⟨hlen.ge, hmem⟩]
  · intro hmem
    simp only [joinSession, hs]
    rw [if_neg (fun h => h.2 hmem)]
    cases findParticipantEntry
        (if s.status = some .scheduledForDeletion ∨ s.isActive = false then
          patchSession db sid (fun t =>
            { t with status := some .active, isActive := true, expiresAt := none,
                     lastActivity := now })
        else db) sid uid <;> simp

/-- Witness for C6 at the concrete store `exDb6` (two-seat session holding A
and B): E's join is rejected as full, B's rejoin is not. -/
theorem C6_capacity_check_witness :
    joinSession exDb6 0 "E" 5 = .error .sessionFull ∧
    joinSession exDb6 0 "B" 5 ≠ .error .sessionFull :=
  ⟨(C6_capacity_check exDb6 0 "E" 5
        { baseSession with activeUsers := ["A", "B"], maxUsers := 2 } (by decide)).1
      (by decide) (by decide),
   (C6_capacity_check exDb6 0 "B" 5
        { baseSession with activeUsers := ["A", "B"], maxUsers := 2 } (by decide)).2
      (by decide)⟩

/-- Claim C7 (counterexample): session 0 of `exDb7` is `scheduled_for_deletion`
while its stale `activeUsers` still fills the two-seat cap (the state a
`leaveSession` by a non-listed user produces).  A join by the outside user E
throws "Session is full", the transaction rolls back, and the externally
observable store still holds the session scheduled for deletion — so a
`joinSession` by an arbitrary user does not always reactivate the session. -/
theorem C7_counterexample_full_join_rollback :
    (joinSession exDb7 0 "E" 1000).toOption = none ∧
    (lookupId (runJoinSession exDb7 0 "E" 1000).sessions 0).map Session.status
      = some (some .scheduledForDeletion) := by
  decide

/-- Claim C7 (amended): for a session in `scheduled_for_deletion`, a
`participantHeartbeat` by any user holding a participant row sets the status
back to `active`, sets `isActive`, and clears `expiresAt`; a `joinSession`
does the same provided it does not fail the capacity check (a join rejected
as full commits nothing). -/
theorem C7_reactivation (db : DB) (sid : Nat) (uid : String) (now : Nat) (s : Session)
    (hs : lookupId db.sessions sid = some s)
    (hst : s.status = some .scheduledForDeletion) :
    (∀ pid p, findParticipantEntry db sid uid = some (pid, p) →
      ∃ db', participantHeartbeat db sid uid now = .ok db' ∧
        ∃ s', lookupId db'.sessions sid = some s' ∧
          s'.status = some .active ∧ s'.isActive = true ∧ s'.expiresAt = none) ∧
    (¬(s.activeUsers.length ≥ s.maxUsers ∧ uid ∉ s.activeUsers) →
      ∃ db', joinSession db sid uid now = .ok db' ∧
        ∃ s', lookupId db'.sessions sid = some s' ∧
          s'.status = some .active ∧ s'.isActive = true ∧ s'.expiresAt = none) := by
  constructor
  · intro pid p hp
    simp only [participantHeartbeat, hp]
    refine ⟨_, rfl, ?_⟩
    simp [lookupId_patchTable, patchParticipant_sessions, patchSession_sessions, hs, hst]
  · intro hcap
    simp only [joinSession, hs]
    rw [if_pos (Or.inl hst), if_neg hcap]
    refine ⟨_, rfl, ?_⟩
    cases findParticipantEntry
        (patchSession db sid (fun t =>
          { t with status := some .active, isActive := true, expiresAt := none,
                   lastActivity := now })) sid uid <;>
      simp [lookupId_patchTable, patchParticipant_sessions, patchSession_sessions, hs]

/-- Witness for C7 (amended) at the concrete store `exDb7`: a heartbeat by the
member B reactivates the scheduled session, as does B's (capacity-exempt)
rejoin. -/
theorem C7_reactivation_witness :
    (∃ db', participantHeartbeat exDb7 0 "B" 1000 = .ok db' ∧
      ∃ s', lookupId db'.sessions 0 = some s' ∧
        s'.status = some .active ∧ s'.isActive = true ∧ s'.expiresAt = none) ∧
    (∃ db', joinSession exDb7 0 "B" 1000 = .ok db' ∧
      ∃ s', lookupId db'.sessions 0 = some s' ∧
        s'.status = some .active ∧ s'.isActive = true ∧ s'.expiresAt = none) :=
  ⟨(C7_reactivation exDb7 0 "B" 1000 schedSession (by decide) (by decide)).1 1
      { baseParticipant with userId := "B", userName := "B" } (by decide),
   (C7_reactivation exDb7 0 "B" 1000 schedSession (by decide) (by decide)).2 (by decide)⟩

/-- Claim C8: a user already owning two or more sessions (total count over the
`by_creator_id` index) gets the quota error from both `createSession` and
`loadSavedSession`, and by transaction rollback no session record is created;
below the quota, both calls succeed and the new record (inserted under the
fresh id `db.nextId`) has status `active` and `activeUsers` exactly the
creator.  For `loadSavedSession` the saved session is assumed to resolve and
be loadable (owner, or not private) — those checks precede the quota check. -/
theorem C8_session_quota (db : DB) (uid : String) (cargs : CreateSessionArgs)
    (ssid : Nat) (saved : SavedSession) (sname : Option String) (mp : Option Bool)
    (now : Nat) (key : String)
    (hcreator : cargs.creatorId = uid)
    (hsaved : lookupId db.savedSessions ssid = some saved)
    (hload : saved.userId = uid ∨ saved.isPrivate = false)
    (hfresh : ∀ pr ∈ db.sessions, pr.1 ≠ db.nextId) :
    ((db.sessions.filter (fun pr => decide (pr.2.creatorId = uid))).length ≥ 2 →
      createSession db cargs now key = .error .sessionLimitExceeded ∧
      loadSavedSession db ssid uid sname mp now key = .error .sessionLimitExceeded) ∧
    ((db.sessions.filter (fun pr => decide (pr.2.creatorId = uid))).length < 2 →
      (∃ db', createSession db cargs now key = .ok (db', db.nextId, key) ∧
        ∃ s', lookupId db'.sessions db.nextId = some s' ∧
          s'.status = some .active ∧ s'.activeUsers = [uid]) ∧
      (∃ db', loadSavedSession db ssid uid sname mp now key = .ok (db', db.nextId, key) ∧
        ∃ s', lookupId db'.sessions db.nextId = some s' ∧
          s'.status = some .active ∧ s'.activeUsers = [uid])) := by
  have hnone : lookupId db.sessions db.nextId = none :=
    (lookupId_eq_none _ _).mpr hfresh
  have hloadneg : ¬(saved.userId ≠ uid ∧ saved.isPrivate = true) := by
    rcases hload with h | h
    · exact fun hcon => hcon.1 h
    · exact fun hcon => by rw [h] at hcon; exact Bool.false_ne_true hcon.2
  constructor
  · intro hq
    constructor
    · simp only [createSession, hcreator]
      rw [if_pos hq]
    · simp only [loadSavedSession, hsaved]
      rw [if_neg hloadneg, if_pos hq]
  · intro hq
    have hqn : ¬((db.sessions.filter (fun pr => decide (pr.2.creatorId = uid))).length ≥ 2) :=
      not_le.mpr hq
    constructor
    · simp only [createSession, hcreator]
      rw [if_neg hqn]
      refine ⟨_, rfl, ?_⟩
      rw [lookupId_append_left_none _ _ hnone]
      exact ⟨_, lookupId_singleton _ _, rfl, rfl⟩
    · simp only [loadSavedSession, hsaved]
      rw [if_neg hloadneg, if_neg hqn]
      refine ⟨_, rfl, ?_⟩
      rw [lookupId_append_left_none _ _ hnone]
      exact ⟨_, lookupId_singleton _ _, rfl, rfl⟩

/-- Witness for C8: user A owns two sessions in `exDb8` and both calls fail
with the quota error; in `exDb8b` (one owned session) both calls create a
session with status `active` and `activeUsers = ["A"]`. -/
theorem C8_session_quota_witness :
    (createSession exDb8 exCreateArgs 5 "kk" = .error .sessionLimitExceeded ∧
     loadSavedSession exDb8 2 "A" none none 5 "kk" = .error .sessionLimitExceeded) ∧
    ((∃ db', createSession exDb8b exCreateArgs 5 "kk" = .ok (db', exDb8b.nextId, "kk") ∧
       ∃ s', lookupId db'.sessions exDb8b.nextId = some s' ∧
         s'.status = some .active ∧ s'.activeUsers = ["A"]) ∧
     (∃ db', loadSavedSession exDb8b 2 "A" none none 5 "kk" = .ok (db', exDb8b.nextId, "kk") ∧
       ∃ s', lookupId db'.sessions exDb8b.nextId = some s' ∧
         s'.status = some .active ∧ s'.activeUsers = ["A"])) :=
  ⟨(C8_session_quota exDb8 "A" exCreateArgs 2 baseSavedSession none none 5 "kk"
      (by decide) (by decide) (Or.inl (by decide)) (by decide)).1 (by decide),
   (C8_session_quota exDb8b "A" exCreateArgs 2 baseSavedSession none none 5 "kk"
      (by decide) (by decide) (Or.inl (by decide)) (by decide)).2 (by decide)⟩

/-- Claim C9 (counterexample): user A, a participant of session 0, has already
saved it (saved session 100 of `exDb9` has `originalSessionId = 0`) and sits
exactly at the 10-save cap.  Re-saving session 0 fails with
`SAVE_LIMIT_EXCEEDED`, not the claimed `DUPLICATE_SAVE`: the handler checks
the saved-session cap before the duplicate check. -/
theorem C9_counterexample_cap_precedes_duplicate :
    (∃ pr ∈ exDb9.savedSessions, pr.2.userId = "A" ∧ pr.2.originalSessionId = some 0) ∧
    saveSessionToCollection exDb9 exSaveArgs 50 = .error .saveLimitExceeded := by
  refine ⟨by decide, by rfl⟩

/-- Claim C9 (amended): for a caller who is the session's creator or a
participant, when the session does not carry an `originalSavedSessionId`
resolving to a saved session the caller owns (the smart re-save path), and
the caller's saved-session count is below the 10-save cap, a repeat save of a
session the caller already saved fails with the distinguishable
`DUPLICATE_SAVE` error (and by transaction rollback inserts nothing);
at the cap the call fails with `SAVE_LIMIT_EXCEEDED` instead. -/
theorem C9_duplicate_save_below_cap (db : DB) (args : SaveArgs) (now : Nat) (s : Session)
    (hs : lookupId db.sessions args.sessionId = some s)
    (hpart : s.creatorId = args.userId ∨ findParticipantEntry db args.sessionId args.userId ≠ none)
    (hresave : match s.originalSavedSessionId with
      | some oid => ∀ orig, lookupId db.savedSessions oid = some orig → orig.userId ≠ args.userId
      | none => True)
    (hcap : (db.savedSessions.filter (fun pr => decide (pr.2.userId = args.userId))).length < 10)
    (hdup : ∃ pr ∈ db.savedSessions, pr.2.userId = args.userId ∧
      pr.2.originalSessionId = some args.sessionId) :
    saveSessionToCollection db args now = .error .duplicateSave := by
  obtain ⟨d, hd⟩ : ∃ d, db.savedSessions.find? (fun pr =>
      decide (pr.2.userId = args.userId ∧ pr.2.originalSessionId = some args.sessionId))
        = some d := by
    obtain ⟨pr, hmem, h1, h2⟩ := hdup
    exact Option.isSome_iff_exists.mp
      (List.find?_isSome.mpr ⟨pr, hmem, by simp [h1, h2]⟩)
  have hresv : (match s.originalSavedSessionId with
      | some oid =>
        match lookupId db.savedSessions oid with
        | some orig => if orig.userId = args.userId then some oid else none
        | none => none
      | none => none) = (none : Option Nat) := by
    cases ho : s.originalSavedSessionId with
    | none => rfl
    | some oid =>
      simp only [ho] at hresave
      cases hl : lookupId db.savedSessions oid with
      | none => simp [hl]
      | some orig => simp [hl, hresave orig hl]
  simp only [saveSessionToCollection, hs]
  rw [if_neg (fun hcon => hpart.elim (fun h => hcon.1 h) (fun h => h hcon.2))]
  rw [hresv]
  rw [if_neg (not_le.mpr hcap)]
  rw [hd]

/-- Witness for C9 (amended) at the concrete store `exDb9b`: user A holds one
saved session (below the cap) originating from session 0, and re-saving
session 0 is rejected with `DUPLICATE_SAVE`. -/
theorem C9_duplicate_save_below_cap_witness :
    saveSessionToCollection exDb9b exSaveArgs 50 = .error .duplicateSave :=
  C9_duplicate_save_below_cap exDb9b exSaveArgs 50 baseSession (by decide)
    (Or.inl (by decide)) (by trivial) (by decide)
    ⟨(100, { baseSavedSession with originalSessionId := some 0 }), by decide, by decide, by decide⟩

/-- The only write a successful `updateSessionCode` performs on the sessions
table is the code/`lastActivity` patch of its own session (or no write at all
when the code is unchanged). -/
theorem updateSessionCode_ok_sessions (db : DB) (sid : Nat) (uid : String) (code : String)
    (operation : Option EditOperation) (now : Nat) (db' : DB)
    (hok : updateSessionCode db sid uid code operation now = .ok db') :
    db'.sessions = db.sessions ∨
    db'.sessions = patchTable db.sessions sid
      (fun t => { t with code := code, lastActivity := now }) := by
  cases hs0 : lookupId db.sessions sid with
  | none =>
    simp only [updateSessionCode, hs0] at hok
    exact absurd hok (by simp)
  | some s0 =>
    cases hfp : findParticipantEntry db sid uid with
    | none =>
      simp only [updateSessionCode, hs0, hfp] at hok
      exact absurd hok (by simp)
    | some pr =>
      obtain ⟨pid, p⟩ := pr
      simp only [updateSessionCode, hs0, hfp] at hok
      by_cases hperm : p.permission ≠ Permission.write
      · rw [if_pos hperm] at hok
        exact absurd hok (by simp)
      · rw [if_neg hperm] at hok
        injection hok with h
        subst h
        by_cases hcode : s0.code ≠ code
        · right
          cases operation <;> by_cases ht : now - p.lastActive > 5000 <;>
            simp [hcode, ht, patchSession]
        · left
          by_cases ht : now - p.lastActive > 5000 <;> simp [hcode, ht]

/-- Claim C10: every successful `updateSessionCode` call leaves the session's
`status`, `isActive`, `expiresAt` and `activeUsers` unchanged — it only ever
writes `code`/`lastActivity` on the session record, an operation-log entry,
and the caller's throttled participant `lastActive`.  In particular a code
update to a `scheduled_for_deletion` session neither reactivates it nor
clears its deadline. -/
theorem C10_updateCode_lifecycle_frame (db : DB) (sid : Nat) (uid : String)
    (code : String) (operation : Option EditOperation) (now : Nat) (s : Session) (db' : DB)
    (hs : lookupId db.sessions sid = some s)
    (hok : updateSessionCode db sid uid code operation now = .ok db') :
    ∃ s', lookupId db'.sessions sid = some s' ∧
      s'.status = s.status ∧ s'.isActive = s.isActive ∧
      s'.expiresAt = s.expiresAt ∧ s'.activeUsers = s.activeUsers := by
  rcases updateSessionCode_ok_sessions db sid uid code operation now db' hok with h | h
  · exact ⟨s, by rw [h, hs], rfl, rfl, rfl, rfl⟩
  · refine ⟨{ s with code := code, lastActivity := now }, ?_, rfl, rfl, rfl, rfl⟩
    rw [h, lookupId_patchTable, if_pos rfl, hs]
    rfl

/-- Witness for C10 at the concrete store `exDb6`: after a genuine code change
to "newcode", session 0 keeps `status = active`, `isActive`, no `expiresAt`,
and `activeUsers = ["A", "B"]`. -/
theorem C10_updateCode_lifecycle_frame_witness :
    ∃ s', lookupId exDb10after.sessions 0 = some s' ∧
      s'.status = some .active ∧ s'.isActive = true ∧
      s'.expiresAt = none ∧ s'.activeUsers = ["A", "B"] :=
  C10_updateCode_lifecycle_frame exDb6 0 "A" "newcode" none 6000
    { baseSession with activeUsers := ["A", "B"], maxUsers := 2 } exDb10after
    (by decide) (by rfl)
